import Mathlib

/-!
# Verification of the NotebookEditorTest execution/comm bridge

Shallow embedding of `src/src/App.tsx` (full variant) and
`src/unnamed/part_000` (reduced variant): the `executeCode` coordinator,
its per-IOPub-message handler with widget-state hydration, and the
`classicComm` channel adapter built inside `registerCommTarget`.

Conventions of the embedding:
* JavaScript values occurring in message payloads are modelled by `JsVal`
  with JavaScript truthiness (`JsVal.truthy`); object contents are kept
  opaque as association lists.
* React refs/state (`kernel`, `outputArea`, `editorRef`) become `Option`
  fields of `AppState`; `editorRef.current?.getValue()` is `s.editor`
  (`none` = editor unmounted, `some s` = current text).
* Side effects are recorded as an ordered `Event` trace: model clears,
  `requestExecute` submissions, `outputArea.future` (re)bindings,
  `set_state` invocations and `console.error` diagnostics.  `console.log`
  calls carry no state and are not traced.
* `kernel.requestExecute` returns a fresh future, modelled by the counter
  `nextFutureId`; the promise returned by `set_state` is modelled by an
  environment function `f : JsVal → Bool` saying whether it resolves.
-/

/-- A JavaScript value as it can occur in a message `data` mapping.
Object contents are opaque (association list of field names to strings). -/
inductive JsVal where
  | null
  | bool (b : Bool)
  | num (n : Int)
  | str (s : String)
  | obj (fields : List (String × String))
deriving DecidableEq, Repr

/-- JavaScript truthiness: `null`, `false`, `0` and `""` are falsy;
every object is truthy. -/
def JsVal.truthy : JsVal → Bool
  | .null => false
  | .bool b => b
  | .num n => n != 0
  | .str s => s != ""
  | .obj _ => true

/-- The widget-state MIME key tested by the handler
(`application/vnd.jupyter.widget-state+json` in `App.tsx`). -/
def widgetStateMime : String := "application/vnd.jupyter.widget-state+json"

/-- The comm target name registered in `App.tsx` (`"jupyter.widget"`). -/
def widgetTargetName : String := "jupyter.widget"

/-- An IOPub message as seen by `future.onIOPub`: its header `msg_type`
and, when `"data" in msg.content`, the content's `data` mapping. -/
structure IOPubMessage where
  msg_type : String
  data : Option (List (String × JsVal))
deriving DecidableEq, Repr

/-- JavaScript property lookup `d[k]` on a data mapping. -/
def lookupData (d : List (String × JsVal)) (k : String) : Option JsVal :=
  (d.find? (fun p => p.1 == k)).map Prod.snd

/-- The widget-state payload the handler extracts, when its guard
`msg.header.msg_type === "display_data" && "data" in msg.content &&
msg.content.data[widgetStateMime]` (a truthiness test) passes. -/
def widgetStateOf (msg : IOPubMessage) : Option JsVal :=
  if msg.msg_type == "display_data" then
    match msg.data with
    | some d =>
      match lookupData d widgetStateMime with
      | some v => if v.truthy then some v else none
      | none => none
    | none => none
  else none

/-- Observable side effects of the coordinator, in program order. -/
inductive Event where
  | clearModel
  | requestExecute (code : String)
  | bindFuture (fid : Nat)
  | setState (ws : JsVal)
  | diagnostic (text : String)
deriving DecidableEq, Repr

/-- The Output Sink (`OutputArea`): its output model and the future it is
currently bound to (`outputArea.future`). -/
structure SinkState where
  model : List IOPubMessage
  future : Option Nat
deriving DecidableEq, Repr

/-- The component state `executeCode` closes over: the `kernel` handle,
the `outputArea`, the mounted editor's text, and the supply of fresh
future ids handed out by `kernel.requestExecute`. -/
structure AppState where
  kernel : Option Nat
  outputArea : Option SinkState
  editor : Option String
  nextFutureId : Nat
deriving DecidableEq, Repr

/-- Truthiness of `editorRef.current?.getValue()`: `undefined` (editor
unmounted) and the empty string are falsy. -/
def codeTruthy : Option String → Bool
  | some c => c != ""
  | none => false

/-- Result of one `executeCode` call: the new component state, the future
obtained from `requestExecute` (if any), and the emitted event trace. -/
structure ExecResult where
  state : AppState
  newFuture : Option Nat
  trace : List Event
deriving DecidableEq, Repr

def kernelDiag : String := "Kernel not initialized."
def outputDiag : String := "Output area not initialized."
def hydrateFailDiag : String := "Failed to apply widget state:"

/-- `executeCode` from `App.tsx` lines 154-206: guard
`if (kernel && code && outputArea)`, then `outputArea.model.clear()`
followed by `kernel.requestExecute({ code })`; otherwise the two
conditional `console.error` diagnostics.  Binding of `outputArea.future`
does NOT happen here: it happens inside the per-message handler. -/
def executeCode (s : AppState) : ExecResult :=
  match s.kernel, s.editor, s.outputArea with
  | some _, some code, some sink =>
    if code != "" then
      { state := { s with
          outputArea := some { sink with model := [] },
          nextFutureId := s.nextFutureId + 1 },
        newFuture := some s.nextFutureId,
        trace := [Event.clearModel, Event.requestExecute code] }
    else
      { state := s, newFuture := none, trace := [] }
  | k, _, oa =>
    { state := s, newFuture := none,
      trace :=
        (if k.isNone then [Event.diagnostic kernelDiag] else []) ++
        (if oa.isNone then [Event.diagnostic outputDiag] else []) }

/-- The `requestExecute` submissions recorded in a trace. -/
def requestsOf (t : List Event) : List String :=
  t.filterMap (fun e => match e with
    | Event.requestExecute c => some c
    | _ => none)

/-- The `set_state` payloads recorded in a trace. -/
def setStateCallsOf (t : List Event) : List JsVal :=
  t.filterMap (fun e => match e with
    | Event.setState ws => some ws
    | _ => none)

/-- The diagnostics (`console.error`) recorded in a trace. -/
def diagnosticsOf (t : List Event) : List String :=
  t.filterMap (fun e => match e with
    | Event.diagnostic d => some d
    | _ => none)

/-- Result of one invocation of a per-message handler. -/
structure HandlerResult where
  sink : SinkState
  trace : List Event
deriving DecidableEq, Repr

/-- The per-message handler `future.onIOPub` of the full variant
(`App.tsx` lines 162-189): it first rebinds `outputArea.future := future`,
then, when the widget-state guard passes and `managerRef.current` is set,
calls `set_state(widgetState)`, whose rejection is caught and reported via
`console.error`.  `f ws` models whether the `set_state` promise resolves. -/
def onIOPubFull (f : JsVal → Bool) (manager : Bool) (fid : Nat)
    (sink : SinkState) (msg : IOPubMessage) : HandlerResult :=
  let sink1 : SinkState := { sink with future := some fid }
  match widgetStateOf msg with
  | some ws =>
    if manager then
      { sink := sink1,
        trace := [Event.bindFuture fid, Event.setState ws] ++
          (if f ws then [] else [Event.diagnostic hydrateFailDiag]) }
    else
      { sink := sink1, trace := [Event.bindFuture fid] }
  | none => { sink := sink1, trace := [Event.bindFuture fid] }

/-- The per-message handler of the reduced variant
(`part_000` lines 130-133): `outputArea.future = future` and a log. -/
def onIOPubReduced (fid : Nat) (sink : SinkState) (_msg : IOPubMessage) :
    HandlerResult :=
  { sink := { sink with future := some fid },
    trace := [Event.bindFuture fid] }

/-- The trace one message contributes, which is independent of the sink
the handler is invoked on. -/
def msgTrace (f : JsVal → Bool) (manager : Bool) (fid : Nat)
    (msg : IOPubMessage) : List Event :=
  match widgetStateOf msg with
  | some ws =>
    if manager then
      [Event.bindFuture fid, Event.setState ws] ++
        (if f ws then [] else [Event.diagnostic hydrateFailDiag])
    else [Event.bindFuture fid]
  | none => [Event.bindFuture fid]

/-- Processing of a whole IOPub stream of one execution by the full
variant's handler, in arrival order. -/
def processStream (f : JsVal → Bool) (manager : Bool) (fid : Nat) :
    SinkState → List IOPubMessage → SinkState × List Event
  | sink, [] => (sink, [])
  | sink, msg :: rest =>
    let r := onIOPubFull f manager fid sink msg
    let rec' := processStream f manager fid r.sink rest
    (rec'.1, r.trace ++ rec'.2)

/-- One `executeCode` call followed by processing of the execution's IOPub
stream (when a future was obtained): the complete event trace. -/
def executeAndProcess (f : JsVal → Bool) (s : AppState)
    (msgs : List IOPubMessage) : List Event :=
  let r := executeCode s
  match r.newFuture, r.state.outputArea with
  | some fid, some sink => r.trace ++ (processStream f true fid sink msgs).2
  | _, _ => r.trace

/-- A native kernel Comm as the adapter sees it: its identity, the record
of `comm.send` invocations, its closed flag, and the single `onMsg` /
`onClose` callback slots.  `γ` is the type of callback tokens; the code's
wrapper `(msg) => callback(msg)` forwards the message unchanged, so slots
store the callback itself. -/
structure CommState (γ : Type) where
  commId : String
  targetName : String
  sent : List (JsVal × Option JsVal × Option (List Nat))
  closed : Bool
  onMsgSlot : Option γ
  onCloseSlot : Option γ
deriving DecidableEq, Repr

/-- `classicComm.on_msg` (`App.tsx` lines 91-95): overwrite `comm.onMsg`. -/
def classic_on_msg {γ : Type} (c : CommState γ) (callback : γ) : CommState γ :=
  { c with onMsgSlot := some callback }

/-- `classicComm.on_close` (`App.tsx` lines 96-100): overwrite `comm.onClose`. -/
def classic_on_close {γ : Type} (c : CommState γ) (callback : γ) : CommState γ :=
  { c with onCloseSlot := some callback }

/-- `classicComm.send` (`App.tsx` lines 101-109): calls
`comm.send(data, metadata, buffers)` — `callbacks` is not forwarded —
and returns `comm.commId`. -/
def classic_send {γ : Type} (c : CommState γ) (data : JsVal)
    (callbacks : Option JsVal) (metadata : Option JsVal)
    (buffers : Option (List Nat)) : String × CommState γ :=
  (c.commId, { c with sent := c.sent ++ [(data, metadata, buffers)] })

/-- `classicComm.close` (`App.tsx` lines 110-113): calls `comm.close()`
and returns `comm.commId`. -/
def classic_close {γ : Type} (c : CommState γ) : String × CommState γ :=
  (c.commId, { c with closed := true })

/-- `classicComm.open` (`App.tsx` lines 114-117): only logs, then returns
`comm.commId`; the underlying Comm is untouched. -/
def classic_open {γ : Type} (c : CommState γ) : String × CommState γ :=
  (c.commId, c)

/-- Delivery of a message on the underlying Comm: the registered callback
(if any) is invoked with the message content unchanged. -/
def deliverMsg {γ : Type} (c : CommState γ) (m : JsVal) : Option (γ × JsVal) :=
  c.onMsgSlot.map (fun cb => (cb, m))

/-- Delivery of a close notification on the underlying Comm. -/
def deliverClose {γ : Type} (c : CommState γ) (m : JsVal) : Option (γ × JsVal) :=
  c.onCloseSlot.map (fun cb => (cb, m))

/-- The observable identity of the `classicComm` view built for a Comm. -/
structure ClassicCommView where
  comm_id : String
  target_name : String
deriving DecidableEq, Repr

/-- The view the comm-open handler constructs for a Comm
(`App.tsx` lines 88-118): `comm_id := comm.commId`,
`target_name := comm.targetName`. -/
def classicCommOf {γ : Type} (c : CommState γ) : ClassicCommView :=
  { comm_id := c.commId, target_name := c.targetName }

/-- Effects of one run of the comm-open handler. -/
structure CommOpenResult where
  viewsBuilt : List ClassicCommView
  handleCommOpenCalls : List (ClassicCommView × JsVal)
deriving DecidableEq, Repr

/-- The handler `registerCommTarget("jupyter.widget", (comm, msg) => ...)`
registers (`App.tsx` lines 87-121): build one `classicComm` view for the
opened Comm, then `managerRef.current?.handle_comm_open(classicComm, msg)`
(the optional chaining skips the call when the manager is absent). -/
def commOpenHandler {γ : Type} (manager : Bool) (c : CommState γ)
    (msg : JsVal) : CommOpenResult :=
  let view := classicCommOf c
  { viewsBuilt := [view],
    handleCommOpenCalls := if manager then [(view, msg)] else [] }

/-- The spec's reading of "contains the widget-state MIME key": the key is
present in the message's data mapping, regardless of its value. -/
def containsWidgetKey (msg : IOPubMessage) : Bool :=
  match msg.data with
  | some d => (lookupData d widgetStateMime).isSome
  | none => false

/-- A display-data message carrying the widget-state key mapped to a
JavaScript-truthy value: the exact condition the handler's guard tests. -/
def carriesTruthyWidgetState (msg : IOPubMessage) : Bool :=
  msg.msg_type == "display_data" &&
    (match msg.data with
     | some d =>
       match lookupData d widgetStateMime with
       | some v => v.truthy
       | none => false
     | none => false)

/-! ## Concrete states used by witnesses and counterexamples -/

/-- A plain stream message (no `data` mapping). -/
def mStream : IOPubMessage := { msg_type := "stream", data := none }

/-- A widget-state payload (an object, hence truthy). -/
def wsA : JsVal := JsVal.obj [("model-A", "state")]

/-- A display-data message carrying the widget-state key with payload `wsA`. -/
def msgWidget : IOPubMessage :=
  { msg_type := "display_data", data := some [(widgetStateMime, wsA)] }

/-- A display-data message whose data mapping contains the widget-state
key mapped to the empty string — present, but JavaScript-falsy. -/
def msgFalsyWidget : IOPubMessage :=
  { msg_type := "display_data", data := some [(widgetStateMime, JsVal.str "")] }

/-- An empty, unbound output sink. -/
def sink0 : SinkState := { model := [], future := none }

/-- A fully initialized app state with stale output and code `"1+1"`. -/
def sReady : AppState :=
  { kernel := some 0,
    outputArea := some { model := [mStream], future := none },
    editor := some "1+1",
    nextFutureId := 5 }

/-- App state before the kernel is initialized. -/
def sNoKernel : AppState :=
  { kernel := none,
    outputArea := some { model := [mStream], future := some 0 },
    editor := some "1+1",
    nextFutureId := 1 }

/-- Initialized app state whose editor currently holds the empty string. -/
def sEmptyCode : AppState :=
  { kernel := some 0,
    outputArea := some { model := [mStream], future := some 0 },
    editor := some "",
    nextFutureId := 2 }

/-- The native Comm of the spec's scenario: id `"c1"`, widget target. -/
def commC1 : CommState Nat :=
  { commId := "c1", targetName := widgetTargetName,
    sent := [], closed := false, onMsgSlot := none, onCloseSlot := none }

/-! ## Helper lemmas -/

/-- The trace a handler invocation emits does not depend on the sink. -/
theorem onIOPubFull_trace (f : JsVal → Bool) (manager : Bool) (fid : Nat)
    (sink : SinkState) (msg : IOPubMessage) :
    (onIOPubFull f manager fid sink msg).trace = msgTrace f manager fid msg := by
  cases h : widgetStateOf msg <;> cases manager <;>
    simp [onIOPubFull, msgTrace, h]

/-- Stream processing emits each message's own trace, in order. -/
theorem processStream_trace (f : JsVal → Bool) (manager : Bool) (fid : Nat)
    (sink : SinkState) (msgs : List IOPubMessage) :
    (processStream f manager fid sink msgs).2
      = msgs.flatMap (msgTrace f manager fid) := by
  induction msgs generalizing sink with
  | nil => rfl
  | cons m rest ih => simp [processStream, onIOPubFull_trace, ih]

/-- The handler's guard, phrased as the spec's predicate: the guard passes
exactly when the message is display data carrying a truthy widget state. -/
theorem carriesTruthy_eq_isSome (msg : IOPubMessage) :
    carriesTruthyWidgetState msg = (widgetStateOf msg).isSome := by
  unfold carriesTruthyWidgetState widgetStateOf
  cases h1 : (msg.msg_type == "display_data") <;> simp [h1]
  cases h2 : msg.data <;> simp
  cases h3 : lookupData _ widgetStateMime <;> simp
  cases h4 : JsVal.truthy _ <;> simp [h4]

/-! ## Claim theorems -/

/-- C1: when the kernel or the output area is absent, `executeCode` leaves
the component state (in particular the Output Sink's model) unchanged,
never calls `requestExecute`, and reports the corresponding diagnostic. -/
theorem executeCode_precondition_guard (s : AppState)
    (h : s.kernel = none ∨ s.outputArea = none) :
    (executeCode s).state = s
  ∧ requestsOf (executeCode s).trace = []
  ∧ (s.kernel = none → Event.diagnostic kernelDiag ∈ (executeCode s).trace)
  ∧ (s.outputArea = none → Event.diagnostic outputDiag ∈ (executeCode s).trace) := by
  obtain ⟨k, oa, ed, n⟩ := s
  rcases h with hk | ho
  · simp only at hk
    subst hk
    cases ed <;> cases oa <;>
      simp [executeCode, requestsOf]
  · simp only at ho
    subst ho
    cases ed <;> cases k <;>
      simp [executeCode, requestsOf]

theorem executeCode_precondition_guard_witness :
    (executeCode sNoKernel).state = sNoKernel
  ∧ requestsOf (executeCode sNoKernel).trace = []
  ∧ Event.diagnostic kernelDiag ∈ (executeCode sNoKernel).trace := by
  have h := executeCode_precondition_guard sNoKernel (Or.inl rfl)
  exact ⟨h.1, h.2.1, h.2.2.1 rfl⟩

/-- C9: when kernel and output area exist but the editor yields no code or
the empty string, `executeCode` is a silent no-op: no submission, no model
clear, no diagnostic, state unchanged. -/
theorem executeCode_empty_code_silent_noop (s : AppState)
    (hk : s.kernel.isSome = true) (ho : s.outputArea.isSome = true)
    (hc : codeTruthy s.editor = false) :
    executeCode s = { state := s, newFuture := none, trace := [] } := by
  obtain ⟨k, oa, ed, n⟩ := s
  cases k with
  | none => simp at hk
  | some kv =>
    cases oa with
    | none => simp at ho
    | some sink =>
      cases ed with
      | none => simp [executeCode]
      | some c =>
        have hc' : (c != "") = false := by simpa [codeTruthy] using hc
        simp [executeCode, hc']

theorem executeCode_empty_code_silent_noop_witness :
    executeCode sEmptyCode
      = { state := sEmptyCode, newFuture := none, trace := [] } :=
  executeCode_empty_code_silent_noop sEmptyCode rfl rfl rfl

/-- C2: when the preconditions hold, `executeCode` clears the Output
Sink's model strictly before submitting the code (trace order), the model
is empty immediately before the first output message of the execution is
processed, and in the combined trace of submission plus stream processing
every `bindFuture` of the new future comes after the clear. -/
theorem executeCode_clears_before_submit (f : JsVal → Bool) (s : AppState)
    (code : String) (msgs : List IOPubMessage)
    (hk : s.kernel.isSome = true) (he : s.editor = some code)
    (hc : code ≠ "") (ho : s.outputArea.isSome = true) :
    (executeCode s).trace = [Event.clearModel, Event.requestExecute code]
  ∧ (∃ sink, (executeCode s).state.outputArea = some sink ∧ sink.model = [])
  ∧ (executeCode s).newFuture = some s.nextFutureId
  ∧ executeAndProcess f s msgs
      = Event.clearModel :: Event.requestExecute code ::
          msgs.flatMap (msgTrace f true s.nextFutureId) := by
  obtain ⟨k, oa, ed, n⟩ := s
  cases k with
  | none => simp at hk
  | some kv =>
    cases oa with
    | none => simp at ho
    | some sink =>
      simp only at he
      subst he
      have hc' : (code != "") = true := by simpa using hc
      refine ⟨?_, ?_, ?_, ?_⟩ <;>
        simp [executeCode, executeAndProcess, hc', processStream_trace]

theorem executeCode_clears_before_submit_witness :
    (executeCode sReady).trace
      = [Event.clearModel, Event.requestExecute "1+1"]
  ∧ (∃ sink, (executeCode sReady).state.outputArea = some sink
        ∧ sink.model = [])
  ∧ (executeCode sReady).newFuture = some sReady.nextFutureId
  ∧ executeAndProcess (fun _ => true) sReady [mStream]
      = Event.clearModel :: Event.requestExecute "1+1" ::
          [mStream].flatMap (msgTrace (fun _ => true) true sReady.nextFutureId) :=
  executeCode_clears_before_submit (fun _ => true) sReady "1+1" [mStream]
    rfl rfl (by decide) rfl

/-- C3: the code does NOT bind the Output Sink to the new future at
submission time.  At the concrete ready state the submission yields
future `5`, yet immediately after `executeCode` the sink's binding is
still the old one (`none`); the binding to `5` only appears once the
first IOPub message is run through the handler. -/
theorem future_not_bound_at_submission :
    (executeCode sReady).newFuture = some 5
  ∧ (executeCode sReady).state.outputArea
      = some { model := [], future := none }
  ∧ (onIOPubFull (fun _ => true) true 5
        { model := [], future := none } mStream).sink.future = some 5 := by
  refine ⟨rfl, rfl, rfl⟩

/-- C4 (as stated, refuted): `set_state` is NOT invoked for every
display-data message whose data mapping contains the widget-state key.
`msgFalsyWidget` contains the key, mapped to the JavaScript-falsy `""`,
and the handler's truthiness guard skips hydration. -/
theorem hydration_gating_counterexample :
    ¬ (((setStateCallsOf
          (onIOPubFull (fun _ => true) true 0 sink0 msgFalsyWidget).trace).length = 1)
        ↔ (msgFalsyWidget.msg_type = "display_data"
            ∧ containsWidgetKey msgFalsyWidget = true)) := by
  decide

/-- C4 (amended): with the widget manager present, the handler invokes
`set_state` exactly once iff the message is display data whose data
mapping contains the widget-state key mapped to a truthy value; a message
without such a key only rebinds the future — no hydration, no error. -/
theorem hydration_gating (f : JsVal → Bool) (fid : Nat) (sink : SinkState)
    (msg : IOPubMessage) :
    ((setStateCallsOf (onIOPubFull f true fid sink msg).trace).length = 1
       ↔ carriesTruthyWidgetState msg = true)
  ∧ (carriesTruthyWidgetState msg = false →
       (onIOPubFull f true fid sink msg).trace = [Event.bindFuture fid]) := by
  rw [carriesTruthy_eq_isSome]
  cases h : widgetStateOf msg with
  | none => simp [onIOPubFull, h, setStateCallsOf]
  | some ws =>
    cases hf : f ws <;>
      simp [onIOPubFull, h, hf, setStateCallsOf]

theorem hydration_gating_witness :
    ((setStateCallsOf
        (onIOPubFull (fun _ => true) true 0 sink0 msgWidget).trace).length = 1
      ↔ carriesTruthyWidgetState msgWidget = true)
  ∧ (carriesTruthyWidgetState msgWidget = false →
       (onIOPubFull (fun _ => true) true 0 sink0 msgWidget).trace
         = [Event.bindFuture 0]) :=
  hydration_gating (fun _ => true) 0 sink0 msgWidget

/-- C5: the adapted view's `send` forwards exactly `data`, `metadata` and
`buffers` to the Comm's send primitive, ignores `callbacks`, and returns
the Comm's id; `close` closes the Comm and returns its id; `open` leaves
the Comm untouched and returns its id. -/
theorem classicComm_send_close_open {γ : Type} (c : CommState γ)
    (data : JsVal) (callbacks callbacks' metadata : Option JsVal)
    (buffers : Option (List Nat)) :
    classic_send c data callbacks metadata buffers
      = (c.commId, { c with sent := c.sent ++ [(data, metadata, buffers)] })
  ∧ classic_send c data callbacks metadata buffers
      = classic_send c data callbacks' metadata buffers
  ∧ classic_close c = (c.commId, { c with closed := true })
  ∧ classic_open c = (c.commId, c) :=
  ⟨rfl, rfl, rfl, rfl⟩

/-- C6: `on_msg` and `on_close` are single-slot — registering `f` then
`g` equals registering `g` alone — and a message (or close notification)
delivered after a registration reaches the currently registered callback
with the same content. -/
theorem classicComm_last_registration_wins {γ : Type} (c : CommState γ)
    (f g : γ) (m cl : JsVal) :
    classic_on_msg (classic_on_msg c f) g = classic_on_msg c g
  ∧ classic_on_close (classic_on_close c f) g = classic_on_close c g
  ∧ deliverMsg (classic_on_msg c g) m = some (g, m)
  ∧ deliverClose (classic_on_close c g) cl = some (g, cl) :=
  ⟨rfl, rfl, rfl, rfl⟩

/-- C7: a rejected `set_state` is caught and reported — the failing
message's trace ends in the hydration diagnostic — and stream processing
is unaffected: every message before and after the failure contributes
exactly its own per-message trace, so the handler keeps being invoked. -/
theorem hydration_failure_isolated (f : JsVal → Bool) (fid : Nat)
    (sink : SinkState) (pre post : List IOPubMessage)
    (m : IOPubMessage) (ws : JsVal)
    (hm : widgetStateOf m = some ws) (hf : f ws = false) :
    (onIOPubFull f true fid sink m).trace
      = [Event.bindFuture fid, Event.setState ws,
         Event.diagnostic hydrateFailDiag]
  ∧ (processStream f true fid sink (pre ++ m :: post)).2
      = pre.flatMap (msgTrace f true fid)
        ++ msgTrace f true fid m
        ++ post.flatMap (msgTrace f true fid) := by
  constructor
  · simp [onIOPubFull, hm, hf]
  · simp [processStream_trace]

theorem hydration_failure_isolated_witness :
    (onIOPubFull (fun _ => false) true 0 sink0 msgWidget).trace
      = [Event.bindFuture 0, Event.setState wsA,
         Event.diagnostic hydrateFailDiag]
  ∧ (processStream (fun _ => false) true 0 sink0
        ([mStream] ++ msgWidget :: [mStream])).2
      = [mStream].flatMap (msgTrace (fun _ => false) true 0)
        ++ msgTrace (fun _ => false) true 0 msgWidget
        ++ [mStream].flatMap (msgTrace (fun _ => false) true 0) :=
  hydration_failure_isolated (fun _ => false) 0 sink0 [mStream] [mStream]
    msgWidget wsA (by decide) rfl

/-- C8: for a comm-open event on the widget target, the registered
handler builds exactly one `classicComm` view for the opened Comm and
calls `handle_comm_open` exactly once with that view and the originating
open message; the view reports the Comm's id and the widget target. -/
theorem commOpen_single_view {γ : Type} (c : CommState γ) (msg : JsVal)
    (ht : c.targetName = widgetTargetName) :
    (commOpenHandler true c msg).viewsBuilt = [classicCommOf c]
  ∧ (commOpenHandler true c msg).handleCommOpenCalls
      = [(classicCommOf c, msg)]
  ∧ (classicCommOf c).comm_id = c.commId
  ∧ (classicCommOf c).target_name = widgetTargetName := by
  exact ⟨rfl, rfl, rfl, by simp [classicCommOf, ht]⟩

theorem commOpen_single_view_witness :
    (commOpenHandler true commC1 JsVal.null).viewsBuilt
      = [classicCommOf commC1]
  ∧ (commOpenHandler true commC1 JsVal.null).handleCommOpenCalls
      = [(classicCommOf commC1, JsVal.null)]
  ∧ (classicCommOf commC1).comm_id = commC1.commId
  ∧ (classicCommOf commC1).target_name = widgetTargetName :=
  commOpen_single_view commC1 JsVal.null rfl

/-- A message that is not display data containing the widget-state key
makes the handler's guard fail. -/
theorem widgetStateOf_eq_none (msg : IOPubMessage)
    (h : ¬(msg.msg_type = "display_data" ∧ containsWidgetKey msg = true)) :
    widgetStateOf msg = none := by
  unfold widgetStateOf
  cases h1 : (msg.msg_type == "display_data")
  · simp
  · have hmt : msg.msg_type = "display_data" := by
      simpa using h1
    cases h2 : msg.data with
    | none => simp
    | some d =>
      cases h3 : lookupData d widgetStateMime with
      | none => simp [h3]
      | some v =>
        exact absurd ⟨hmt, by simp [containsWidgetKey, h2, h3]⟩ h

/-- C10: on every message that is not display data carrying the
widget-state key, the full variant's handler and the reduced variant's
handler coincide, and their common effect is exactly a rebind of the sink
to the message's future with no other mutation. -/
theorem variants_agree_on_widget_free (f : JsVal → Bool) (fid : Nat)
    (sink : SinkState) (msg : IOPubMessage)
    (h : ¬(msg.msg_type = "display_data" ∧ containsWidgetKey msg = true)) :
    onIOPubFull f true fid sink msg = onIOPubReduced fid sink msg
  ∧ onIOPubReduced fid sink msg
      = { sink := { sink with future := some fid },
          trace := [Event.bindFuture fid] } := by
  have hn := widgetStateOf_eq_none msg h
  exact ⟨by simp [onIOPubFull, onIOPubReduced, hn], rfl⟩

theorem variants_agree_on_widget_free_witness :
    onIOPubFull (fun _ => true) true 0 sink0 mStream
      = onIOPubReduced 0 sink0 mStream
  ∧ onIOPubReduced 0 sink0 mStream
      = { sink := { sink0 with future := some 0 },
          trace := [Event.bindFuture 0] } :=
  variants_agree_on_widget_free (fun _ => true) 0 sink0 mStream (by decide)
